import Mathlib

/-!
Verification of the DNS codec of mcombeau/go-dns-tools.

The Go source (`dns/record.go`, the printer and the `decoder` package
message decoder) is embedded shallowly: byte buffers are `List Byte`
(`Byte := Fin 256`), Go errors are the error strings the code builds, and
a Go runtime panic (an unchecked out-of-range slice index) is the
distinguished result `DResult.panic`.  Functions of the repository that
are not part of the provided source (the domain-name codec, the integer
read/write helpers, the header and question decoders) are modelled from
the specification; their doc comments say so explicitly.
-/

namespace DnsCodec

abbrev Byte := Fin 256

/-- Big-endian 16-bit read `data[i] << 8 | data[i+1]`.  the Go helper indexes
the slice directly and panics when out of range; the panic is `none`. -/
def decodeUint16 (data : List Byte) (i : Nat) : Option Nat :=
  match data.get? i, data.get? (i+1) with
  | some b0, some b1 => some (256 * b0.val + b1.val)
  | _, _ => none

/-- Big-endian 32-bit read of `data[i] .. data[i+3]`; `none` is the Go panic. -/
def decodeUint32 (data : List Byte) (i : Nat) : Option Nat :=
  match data.get? i, data.get? (i+1), data.get? (i+2), data.get? (i+3) with
  | some b0, some b1, some b2, some b3 =>
      some (16777216 * b0.val + 65536 * b1.val + 256 * b2.val + b3.val)
  | _, _, _, _ => none

/-- `data[i : i+n]` when it is in range. -/
def extractBytes (data : List Byte) (i n : Nat) : Option (List Byte) :=
  if i + n ≤ data.length then some ((data.drop i).take n) else none

/-- the Go `string(bytes)` conversion, one character per byte. -/
def bytesToString (bs : List Byte) : String :=
  String.mk (bs.map fun b => Char.ofNat b.val)

/-- Result of a Go call returning `(value, error)`: `ok` carries the value,
`err` the error string, and `panic` marks a Go runtime panic. -/
inductive DResult (α : Type) where
  | ok : α → DResult α
  | err : String → DResult α
  | panic : DResult α
  deriving Repr, DecidableEq

/-- Modelled from the spec: the domain-name decoder `decodeDomainName` is not
part of the provided source.  Spec 4.2: read a length byte; 0 terminates the
name (labels joined with dots plus a trailing dot, `"."` for no labels);
1-63 is a literal label; a byte with the top two bits set (≥ 192) is a
compression pointer whose lower 6 bits joined with the next byte form a
14-bit absolute target offset, which must be below the buffer length.  The
guard of the spec bounds total work by the message length: the fuel starts at
`(length+1)*(length+1)+1` and running out reports the compression-pointer
error, so a cyclic pointer chain fails rather than looping.  `consumed` is
only advanced before the first pointer is followed, matching the spec rule for
"bytes consumed at origin" (literal bytes + 1 for the terminator, or
literal bytes + 2 when a pointer ends the in-place part). -/
def decodeDomainNameAux (data : List Byte) :
    Nat → Nat → Bool → Nat → List String → DResult (String × Nat)
  | 0, _, _, _, _ => .err "compression pointer error"
  | fuel+1, cursor, jumped, consumed, labels =>
    match data.get? cursor with
    | none => .err "buffer too short"
    | some b =>
      if b.val = 0 then
        .ok (String.intercalate "." labels ++ ".",
             if jumped then consumed else consumed + 1)
      else if 192 ≤ b.val then
        match data.get? (cursor+1) with
        | none => .err "buffer too short"
        | some b2 =>
          let target := (b.val - 192) * 256 + b2.val
          if data.length ≤ target then .err "compression pointer error"
          else decodeDomainNameAux data fuel target true
                 (if jumped then consumed else consumed + 2) labels
      else if 63 < b.val then .err "invalid label length"
      else
        match extractBytes data (cursor+1) b.val with
        | none => .err "buffer too short"
        | some labelBytes =>
          decodeDomainNameAux data fuel (cursor + 1 + b.val) jumped
            (if jumped then consumed else consumed + 1 + b.val)
            (labels ++ [bytesToString labelBytes])

/-- Modelled from the spec: entry point of the domain-name decoder, returning
the assembled name and the bytes consumed at the original offset. -/
def decodeDomainName (data : List Byte) (offset : Nat) : DResult (String × Nat) :=
  decodeDomainNameAux data ((data.length + 1) * (data.length + 1) + 1) offset false 0 []

/-! ### Record types (spec section 6 / the `dns` package constants) -/

def A : Nat := 1
def NS : Nat := 2
def CNAME : Nat := 5
def SOA : Nat := 6
def PTR : Nat := 12
def MX : Nat := 15
def TXT : Nat := 16
def AAAA : Nat := 28

/-! ### `dns/record.go` -/

structure RData where
  Raw : List Byte
  Decoded : String
  deriving Repr, DecidableEq

structure ResourceRecord where
  Name : String
  RType : Nat
  RClass : Nat
  TTL : Nat
  RDLength : Nat
  RData : RData
  deriving Repr, DecidableEq

/-- Abstraction of the `net.IP.String` function of the Go standard library: exact for the
4-byte dotted-quad case; other lengths get a deterministic placeholder.
No claim inspects this output. -/
def netIPString (bs : List Byte) : String :=
  match bs with
  | [b0, b1, b2, b3] =>
      toString b0.val ++ "." ++ toString b1.val ++ "." ++
      toString b2.val ++ "." ++ toString b3.val
  | _ => String.intercalate ":" (bs.map fun b => toString b.val)

/-- `decodeA`: formats `data[start:stop]` as a network address.  The slice is
always guarded by the RDATA length check of the caller. -/
def decodeA (data : List Byte) (start stop : Nat) : String :=
  netIPString ((data.drop start).take (stop - start))

/-- `decodeCNAME` (also PTR and NS): the payload is a domain name; a name
decode failure is swallowed and becomes the empty string. -/
def decodeCNAME (data : List Byte) (offset : Nat) : String :=
  match decodeDomainName data offset with
  | .ok (domainName, _) => domainName
  | _ => ""

/-- `decodeMX`: reads a 16-bit preference with no preceding length check
(`none` is the Go panic on out-of-range input), then a domain name whose
failure is swallowed; otherwise `"<preference> <domain>"`. -/
def decodeMX (data : List Byte) (offset : Nat) : Option String :=
  match decodeUint16 data offset with
  | none => none
  | some preference =>
    match decodeDomainName data (offset + 2) with
    | .ok (domainName, _) => some (toString preference ++ " " ++ domainName)
    | _ => some ""

/-- `decodeTXT`: the whole payload range as one string. -/
def decodeTXT (data : List Byte) (start stop : Nat) : String :=
  bytesToString ((data.drop start).take (stop - start))

/-- `decodeSOA`: `make([]string, 7)` pre-fills seven *empty* strings and the
seven fields are then appended after them, so the join carries seven leading
spaces.  Name decode failures return `""`; the five 32-bit reads have no
length check, so an out-of-range read is the Go panic (`none`). -/
def decodeSOA (data : List Byte) (offset : Nat) : Option String :=
  match decodeDomainName data offset with
  | .ok (mname, n1) =>
    match decodeDomainName data (offset + n1) with
    | .ok (rname, n2) =>
      match decodeUint32 data (offset + n1 + n2), decodeUint32 data (offset + n1 + n2 + 4),
            decodeUint32 data (offset + n1 + n2 + 8), decodeUint32 data (offset + n1 + n2 + 12),
            decodeUint32 data (offset + n1 + n2 + 16) with
      | some serial, some refresh, some retry, some expire, some minimum =>
          some (String.intercalate " " (List.replicate 7 "" ++
            [mname, rname, toString serial, toString refresh, toString retry,
             toString expire, toString minimum]))
      | _, _, _, _, _ => none
    | _ => some ""
  | _ => some ""

/-- `decodeRData`: slices the raw payload `data[offset : offset+length]`
(always guarded by the caller) and dispatches on the record type for the
optional decoded form; unrecognized types leave it empty.  `none` is a Go
panic inside an interpreter. -/
def decodeRData (data : List Byte) (rtype : Nat) (offset : Nat) (length : Nat) : Option RData :=
  let decoded : Option String :=
    if rtype = A ∨ rtype = AAAA then some (decodeA data offset (offset + length))
    else if rtype = CNAME ∨ rtype = PTR ∨ rtype = NS then some (decodeCNAME data offset)
    else if rtype = MX then decodeMX data offset
    else if rtype = TXT then some (decodeTXT data offset (offset + length))
    else if rtype = SOA then decodeSOA data offset
    else some ""
  decoded.map fun d => { Raw := (data.drop offset).take length, Decoded := d }

/-- `decodeResourceRecord`: name, 10 fixed bytes (type, class, ttl, length)
behind a single length check, then the RDATA length check, then the payload. -/
def decodeResourceRecord (data : List Byte) (offset : Nat) : DResult (ResourceRecord × Nat) :=
  match decodeDomainName data offset with
  | .err e => .err e
  | .panic => .panic
  | .ok (name, consumed) =>
    if data.length < offset + consumed + 10 then .err "invalid DNS resource record"
    else
      match decodeUint16 data (offset + consumed), decodeUint16 data (offset + consumed + 2),
            decodeUint32 data (offset + consumed + 4), decodeUint16 data (offset + consumed + 8) with
      | some rtype, some rclass, some ttl, some rdlength =>
        if data.length < offset + consumed + 10 + rdlength then
          .err "invalid DNS resource record RDATA length"
        else
          match decodeRData data rtype (offset + consumed + 10) rdlength with
          | none => .panic
          | some rdata =>
            .ok ({ Name := name, RType := rtype, RClass := rclass, TTL := ttl,
                   RDLength := rdlength, RData := rdata },
                 offset + consumed + 10 + rdlength)
      | _, _, _, _ => .panic

/-- Big-endian 16-bit write. -/
def encodeUint16 (v : Nat) : List Byte :=
  [⟨v / 256 % 256, by omega⟩, ⟨v % 256, by omega⟩]

/-- Big-endian 32-bit write. -/
def encodeUint32 (v : Nat) : List Byte :=
  [⟨v / 16777216 % 256, by omega⟩, ⟨v / 65536 % 256, by omega⟩,
   ⟨v / 256 % 256, by omega⟩, ⟨v % 256, by omega⟩]

/-- Modelled from the spec: the name encoder `encodeDomainName` is not part
of the provided source.  Spec 4.2: split the dotted name into labels, write
each as a length byte followed by the label bytes, and end with a zero byte;
no compression is produced.  (The over-63/over-255 failure paths of the spec are
not exercised by any claim, so the model writes the length modulo 256.) -/
def encodeDomainName (name : String) : List Byte :=
  ((name.splitOn ".").filter (fun l => l ≠ "")).foldr
    (fun l acc =>
      (⟨l.length % 256, by omega⟩ : Byte) ::
        (l.data.map fun c => (⟨c.toNat % 256, by omega⟩ : Byte)) ++ acc)
    [⟨0, by decide⟩]

/-- `encodeResourceRecord`: name, type, class, ttl, declared length, then the
*raw* payload bytes verbatim (the decoded form is never written). -/
def encodeResourceRecord (rr : ResourceRecord) : List Byte :=
  encodeDomainName rr.Name ++ encodeUint16 rr.RType ++ encodeUint16 rr.RClass ++
  encodeUint32 rr.TTL ++ encodeUint16 rr.RDLength ++ rr.RData.Raw

/-! ### The message decoder (`decoder` package) -/

structure Flags where
  Response : Bool
  Opcode : Nat
  Authoritative : Bool
  Truncated : Bool
  RecursionDesired : Bool
  RecursionAvailable : Bool
  DnssecOk : Bool
  AuthenticatedData : Bool
  CheckingDisabled : Bool
  ResponseCode : Nat
  deriving Repr, DecidableEq

structure Header where
  Id : Nat
  Flags : Flags
  QuestionCount : Nat
  AnswerRRCount : Nat
  NameserverRRCount : Nat
  AdditionalRRCount : Nat
  deriving Repr, DecidableEq

structure Question where
  Name : String
  QType : Nat
  QClass : Nat
  deriving Repr, DecidableEq

/-- Modelled from the spec: the flags word layout of spec 4.1, most
significant bit first: response(1), opcode(4), authoritative(1),
truncated(1), recursion-desired(1), recursion-available(1), dnssec-ok(1),
authenticated-data(1), checking-disabled(1), response-code(4). -/
def decodeFlags (w : Nat) : Flags :=
  { Response := w / 32768 % 2 = 1
    Opcode := w / 2048 % 16
    Authoritative := w / 1024 % 2 = 1
    Truncated := w / 512 % 2 = 1
    RecursionDesired := w / 256 % 2 = 1
    RecursionAvailable := w / 128 % 2 = 1
    DnssecOk := w / 64 % 2 = 1
    AuthenticatedData := w / 32 % 2 = 1
    CheckingDisabled := w / 16 % 2 = 1
    ResponseCode := w % 16 }

/-- Modelled from the spec: the header decoder `DecodeDNSHeader` is not part
of the provided source.  Spec 4.1: fail when fewer than 12 bytes are
available, else read six consecutive big-endian 16-bit fields. -/
def DecodeDNSHeader (data : List Byte) : DResult Header :=
  match decodeUint16 data 0, decodeUint16 data 2, decodeUint16 data 4,
        decodeUint16 data 6, decodeUint16 data 8, decodeUint16 data 10 with
  | some id, some flagsWord, some qc, some anc, some nsc, some arc =>
      .ok { Id := id, Flags := decodeFlags flagsWord, QuestionCount := qc,
            AnswerRRCount := anc, NameserverRRCount := nsc, AdditionalRRCount := arc }
  | _, _, _, _, _, _ => .err "buffer too short"

/-- Modelled from the spec: the question decoder `decodeDNSQuestion` is not
part of the provided source.  Spec 4.5: a question is a name followed by a
2-byte type and a 2-byte class; it returns the absolute next offset. -/
def decodeDNSQuestion (data : List Byte) (offset : Nat) : DResult (Question × Nat) :=
  match decodeDomainName data offset with
  | .err e => .err e
  | .panic => .panic
  | .ok (name, consumed) =>
    if data.length < offset + consumed + 4 then .err "buffer too short"
    else
      match decodeUint16 data (offset + consumed), decodeUint16 data (offset + consumed + 2) with
      | some qtype, some qclass =>
          .ok ({ Name := name, QType := qtype, QClass := qclass }, offset + consumed + 4)
      | _, _ => .panic

/-- The question loop of `DecodeDNSMessage`: decode exactly `count`
questions, threading the offset; the first failure aborts. -/
def decodeQuestions (data : List Byte) (offset : Nat) : Nat → DResult (List Question × Nat)
  | 0 => .ok ([], offset)
  | count+1 =>
    match decodeDNSQuestion data offset with
    | .err e => .err e
    | .panic => .panic
    | .ok (question, newOffset) =>
      match decodeQuestions data newOffset count with
      | .ok (questions, finalOffset) => .ok (question :: questions, finalOffset)
      | .err e => .err e
      | .panic => .panic

/-- `decodeResourceRecords`: decode exactly `count` records, threading the
offset; the first failure aborts the whole loop. -/
def decodeResourceRecords (data : List Byte) (offset : Nat) :
    Nat → DResult (List ResourceRecord × Nat)
  | 0 => .ok ([], offset)
  | count+1 =>
    match decodeResourceRecord data offset with
    | .err e => .err e
    | .panic => .panic
    | .ok (record, newOffset) =>
      match decodeResourceRecords data newOffset count with
      | .ok (records, finalOffset) => .ok (record :: records, finalOffset)
      | .err e => .err e
      | .panic => .panic

structure DNSMessage where
  Header : Header
  Questions : List Question
  Answers : List ResourceRecord
  NameServers : List ResourceRecord
  Additionals : List ResourceRecord
  deriving Repr, DecidableEq

/-- `DecodeDNSMessage`: header, then the four counted sections, each failure
wrapped with the section label the Go code uses (note the additional section
reuses the answer label) and aborting the whole decode.  The final offset of
the additional section is discarded. -/
def DecodeDNSMessage (data : List Byte) : DResult DNSMessage :=
  if data.length < 12 then .err "invalid DNS message: too short"
  else
    match DecodeDNSHeader data with
    | .err e => .err ("failed to parse DNS header: " ++ e)
    | .panic => .panic
    | .ok header =>
      match decodeQuestions data 12 header.QuestionCount with
      | .err e => .err ("failed to parse DNS question: " ++ e)
      | .panic => .panic
      | .ok (questions, offset1) =>
        match decodeResourceRecords data offset1 header.AnswerRRCount with
        | .err e => .err ("failed to parse DNS answer: " ++ e)
        | .panic => .panic
        | .ok (answers, offset2) =>
          match decodeResourceRecords data offset2 header.NameserverRRCount with
          | .err e => .err ("failed to parse DNS authority name server: " ++ e)
          | .panic => .panic
          | .ok (nameServers, offset3) =>
            match decodeResourceRecords data offset3 header.AdditionalRRCount with
            | .err e => .err ("failed to parse DNS answer: " ++ e)
            | .panic => .panic
            | .ok (additionals, _) =>
              .ok { Header := header, Questions := questions, Answers := answers,
                    NameServers := nameServers, Additionals := additionals }

/-! ### Concrete buffers used by individual claims, and small observers -/

/-- A 12-byte message whose header declares one additional-section record and
no other entries; the record itself is missing, so the additional section is
the (only possible) failing section. -/
def c1data : List Byte := [0, 0, 0, 0, 0, 0, 0, 0, 0, 0, 0, 1]

/-- The four section counts of a decoded header, `none` when the header
decode failed. -/
def headerCounts : DResult Header → Option (Nat × Nat × Nat × Nat)
  | .ok h => some (h.QuestionCount, h.AnswerRRCount, h.NameserverRRCount, h.AdditionalRRCount)
  | _ => none

/-- A resource record with root name, type MX and declared RDATA length 0:
the record framing checks pass, but `decodeMX` then reads a 16-bit
preference at offset 11 of an 11-byte buffer. -/
def c4data : List Byte := [0, 0, 15, 0, 1, 0, 0, 0, 0, 0, 0]

/-- SOA payload: names `a.` and `b.` followed by the five 32-bit integers
1, 2, 3, 4, 5. -/
def soaExample : List Byte :=
  [1, 97, 0, 1, 98, 0, 0, 0, 0, 1, 0, 0, 0, 2, 0, 0, 0, 3, 0, 0, 0, 4, 0, 0, 0, 5]

/-- MX payload: 16-bit preference 10 followed by the encoded name
`mail.example.com.`. -/
def mxExample : List Byte :=
  [0, 10, 4, 109, 97, 105, 108, 7, 101, 120, 97, 109, 112, 108, 101, 3, 99, 111, 109, 0]

/-- A two-byte name whose first byte is a compression pointer targeting
offset 0, i.e. itself: a pointer chain that cycles. -/
def cyc2 : List Byte := [192, 0]

/-- A pointer at offset 0 targeting offset 2, whose pointer targets offset 0
again: a two-step pointer cycle. -/
def cyc4 : List Byte := [192, 2, 192, 0]

/-- A complete message: header declaring exactly one answer record, then a
CNAME record with declared RDATA length 1 whose payload byte 1 starts a
label that runs past the end of the buffer. -/
def c10base : List Byte :=
  [0, 0, 0, 0, 0, 0, 0, 1, 0, 0, 0, 0, 0, 0, 5, 0, 1, 0, 0, 0, 0, 0, 1, 1]

/-- `c10base` with two trailing bytes appended after the last record: they
complete the label `a` and terminate the name. -/
def c10ext : List Byte := c10base ++ [97, 0]

/-- The decoded textual forms of the answer records of a decoded message,
`none` when the decode did not succeed. -/
def decodedForms : DResult DNSMessage → Option (List String)
  | .ok m => some (m.Answers.map fun r => r.RData.Decoded)
  | _ => none

/-- The header of `c10base` and `c10ext`: one answer record, nothing else. -/
def c10hdr : Header :=
  { Id := 0,
    Flags := { Response := false, Opcode := 0, Authoritative := false, Truncated := false,
               RecursionDesired := false, RecursionAvailable := false, DnssecOk := false,
               AuthenticatedData := false, CheckingDisabled := false, ResponseCode := 0 },
    QuestionCount := 0, AnswerRRCount := 1, NameserverRRCount := 0, AdditionalRRCount := 0 }

/-- The answer record of `c10ext`: the trailing bytes complete the embedded
name of the payload, so the decoded form is `a.`. -/
def c10rec : ResourceRecord :=
  { Name := ".", RType := 5, RClass := 1, TTL := 0, RDLength := 1,
    RData := { Raw := [1], Decoded := "a." } }

/-! ### Helper lemmas -/

theorem decodeUint16_isSome (data : List Byte) (i : Nat) (h : i + 1 < data.length) :
    ∃ v, decodeUint16 data i = some v := by
  have h0 : data.get? i = some (data.get ⟨i, by omega⟩) := List.get?_eq_get (by omega)
  have h1 : data.get? (i+1) = some (data.get ⟨i+1, h⟩) := List.get?_eq_get h
  refine ⟨256 * (data.get ⟨i, by omega⟩).val + (data.get ⟨i+1, h⟩).val, ?_⟩
  simp only [decodeUint16, h0, h1]

theorem decodeUint32_isSome (data : List Byte) (i : Nat) (h : i + 3 < data.length) :
    ∃ v, decodeUint32 data i = some v := by
  have h0 : data.get? i = some (data.get ⟨i, by omega⟩) := List.get?_eq_get (by omega)
  have h1 : data.get? (i+1) = some (data.get ⟨i+1, by omega⟩) := List.get?_eq_get (by omega)
  have h2 : data.get? (i+2) = some (data.get ⟨i+2, by omega⟩) := List.get?_eq_get (by omega)
  have h3 : data.get? (i+3) = some (data.get ⟨i+3, h⟩) := List.get?_eq_get h
  refine ⟨16777216 * (data.get ⟨i, by omega⟩).val + 65536 * (data.get ⟨i+1, by omega⟩).val +
    256 * (data.get ⟨i+2, by omega⟩).val + (data.get ⟨i+3, h⟩).val, ?_⟩
  simp only [decodeUint32, h0, h1, h2, h3]

/-- Whatever the dispatch produced, the `Raw` field of a successfully built
`RData` is the payload slice. -/
theorem decodeRData_raw (data : List Byte) (rtype offset length : Nat) (rd : RData)
    (h : decodeRData data rtype offset length = some rd) :
    rd.Raw = (data.drop offset).take length := by
  simp only [decodeRData, Option.map_eq_some'] at h
  obtain ⟨d, -, hd⟩ := h
  rw [← hd]

/-- Inversion of a successful `decodeResourceRecord`: the name decode
succeeded, both length checks passed, the declared length was read at
name-end + 8, the raw payload is the corresponding slice, and the next
offset is name-end + 10 + declared length. -/
theorem decodeResourceRecord_ok_inv (data : List Byte) (offset : Nat)
    (rr : ResourceRecord) (next : Nat)
    (h : decodeResourceRecord data offset = .ok (rr, next)) :
    ∃ consumed,
      decodeDomainName data offset = .ok (rr.Name, consumed) ∧
      ¬ data.length < offset + consumed + 10 ∧
      decodeUint16 data (offset + consumed + 8) = some rr.RDLength ∧
      ¬ data.length < offset + consumed + 10 + rr.RDLength ∧
      rr.RData.Raw = (data.drop (offset + consumed + 10)).take rr.RDLength ∧
      next = offset + consumed + 10 + rr.RDLength := by
  cases hd : decodeDomainName data offset with
  | err e => simp [decodeResourceRecord, hd] at h
  | panic => simp [decodeResourceRecord, hd] at h
  | ok p =>
    obtain ⟨name, consumed⟩ := p
    simp only [decodeResourceRecord, hd] at h
    by_cases h10 : data.length < offset + consumed + 10
    · rw [if_pos h10] at h
      exact absurd h (by simp)
    · rw [if_neg h10] at h
      obtain ⟨v0, hv0⟩ := decodeUint16_isSome data (offset + consumed) (by omega)
      obtain ⟨v2, hv2⟩ := decodeUint16_isSome data (offset + consumed + 2) (by omega)
      obtain ⟨v4, hv4⟩ := decodeUint32_isSome data (offset + consumed + 4) (by omega)
      obtain ⟨v8, hv8⟩ := decodeUint16_isSome data (offset + consumed + 8) (by omega)
      simp only [hv0, hv2, hv4, hv8] at h
      by_cases hrd : data.length < offset + consumed + 10 + v8
      · rw [if_pos hrd] at h
        exact absurd h (by simp)
      · rw [if_neg hrd] at h
        cases hrdata : decodeRData data v0 (offset + consumed + 10) v8 with
        | none =>
          rw [hrdata] at h
          exact absurd h (by simp)
        | some rdata =>
          simp only [hrdata, DResult.ok.injEq, Prod.mk.injEq] at h
          obtain ⟨hrr, hnext⟩ := h
          subst hrr
          subst hnext
          exact ⟨consumed, rfl, h10, hv8, hrd, decodeRData_raw _ _ _ _ _ hrdata, rfl⟩

/-! ### Claims -/

/-- Claim C1, code-bug exhibit: `c1data` declares one additional-section
record and empty question, answer and authority sections, so the additional
section is the only section that can fail — and it does, the record being
absent.  The decoder aborts with an error and no message, but the error is
labeled `failed to parse DNS answer`: it does not identify the additional
section as the one that failed. -/
theorem C1_additional_failure_mislabeled :
    headerCounts (DecodeDNSHeader c1data) = some (0, 0, 0, 1) ∧
    DecodeDNSMessage c1data = .err "failed to parse DNS answer: buffer too short" := by
  decide

/-- Claim C4, code-bug exhibit: on `c4data` the record framing checks all
pass (declared RDATA length 0), yet `decodeMX` performs a 16-bit read at
offset 11 of the 11-byte buffer with no preceding length check, so the whole
record decode is a Go runtime panic, not a typed failure. -/
theorem C4_unchecked_interpreter_read_panics :
    decodeMX c4data 11 = none ∧ decodeResourceRecord c4data 0 = .panic := by
  decide

/-- Claim C6, code-bug exhibit: an SOA payload with names `a.` and `b.` and
integers 1..5 decodes to the 7 fields space-joined — but preceded by seven
space characters coming from the seven pre-allocated empty strings of
`make([]string, 7)`, so the decoded form is not exactly the 7 fields with
nothing before the first. -/
theorem C6_soa_decoded_form_has_leading_spaces :
    decodeSOA soaExample 0 = some "       a. b. 1 2 3 4 5" ∧
    decodeSOA soaExample 0 ≠ some "a. b. 1 2 3 4 5" := by
  decide

/-- Claim C7: whenever the first two payload bytes read as a 16-bit
preference and the bytes from payload offset 2 decode as a domain name, the
MX decoded form is the decimal preference, one space, and the name; in
particular preference 10 followed by the encoded `mail.example.com.`
decodes to `"10 mail.example.com."`. -/
theorem C7_mx_decoded_form (data : List Byte) (offset p k : Nat) (n : String)
    (hp : decodeUint16 data offset = some p)
    (hn : decodeDomainName data (offset + 2) = .ok (n, k)) :
    decodeMX data offset = some (toString p ++ " " ++ n) ∧
    decodeMX mxExample 0 = some "10 mail.example.com." := by
  constructor
  · simp only [decodeMX, hp, hn]
  · decide

/-- Claim C7 witness: a concrete MX payload with preference 3 and the
encoded name `a.`. -/
theorem C7_mx_decoded_form_witness :
    decodeUint16 [0, 3, 1, 97, 0] 0 = some 3 ∧
    decodeDomainName [0, 3, 1, 97, 0] 2 = .ok ("a.", 3) ∧
    decodeMX [0, 3, 1, 97, 0] 0 = some (toString 3 ++ " " ++ "a.") :=
  ⟨by decide, by decide,
   (C7_mx_decoded_form [0, 3, 1, 97, 0] 0 3 3 "a." (by decide) (by decide)).1⟩

/-- Claim C8: a compression pointer whose 14-bit target is at or beyond the
buffer length fails with the compression-pointer error, and a pointer chain
that cycles back on itself — a self-pointer (`cyc2`) or a two-step cycle
(`cyc4`) — terminates with the compression-pointer error instead of looping
or reading out of bounds. -/
theorem C8_pointer_cycle_and_range (data : List Byte) (offset : Nat) (b b2 : Byte)
    (hb : data.get? offset = some b) (h192 : 192 ≤ b.val)
    (hb2 : data.get? (offset + 1) = some b2)
    (hout : data.length ≤ (b.val - 192) * 256 + b2.val) :
    decodeDomainName data offset = .err "compression pointer error" ∧
    decodeDomainName cyc2 0 = .err "compression pointer error" ∧
    decodeDomainName cyc4 0 = .err "compression pointer error" := by
  refine ⟨?_, by decide, by decide⟩
  simp only [decodeDomainName, decodeDomainNameAux, hb, hb2]
  rw [if_neg (by omega), if_pos h192, if_pos hout]

/-- Claim C8 witness: a pointer whose target offset 255 is beyond the
two-byte buffer. -/
theorem C8_pointer_cycle_and_range_witness :
    ([192, 255] : List Byte).get? 0 = some 192 ∧
    (192 : Byte).val ≥ 192 ∧
    ([192, 255] : List Byte).get? 1 = some 255 ∧
    ([192, 255] : List Byte).length ≤ ((192 : Byte).val - 192) * 256 + (255 : Byte).val ∧
    decodeDomainName [192, 255] 0 = .err "compression pointer error" :=
  ⟨by decide, by decide, by decide, by decide,
   (C8_pointer_cycle_and_range [192, 255] 0 192 255 (by decide) (by decide)
     (by decide) (by decide)).1⟩

/-- Claim C3: after the name, fewer than 10 remaining bytes fail the record
decode with the record-too-short error; with the fixed 10 bytes present but
the declared 16-bit payload length exceeding the remaining buffer, it fails
with the distinct RDATA-length error; and either record error aborts the
enclosing record-sequence decode with the same error (no out-of-bounds read
happens in either case: the checked decode returns before any payload
access). -/
theorem C3_record_framing_checks (data : List Byte) (offset consumed rdlength count : Nat)
    (name E : String)
    (hname : decodeDomainName data offset = .ok (name, consumed)) :
    (data.length < offset + consumed + 10 →
      decodeResourceRecord data offset = .err "invalid DNS resource record") ∧
    (¬ data.length < offset + consumed + 10 →
      decodeUint16 data (offset + consumed + 8) = some rdlength →
      data.length < offset + consumed + 10 + rdlength →
      decodeResourceRecord data offset = .err "invalid DNS resource record RDATA length") ∧
    (decodeResourceRecord data offset = .err E →
      decodeResourceRecords data offset (count + 1) = .err E) := by
  refine ⟨?_, ?_, ?_⟩
  · intro hshort
    simp only [decodeResourceRecord, hname]
    rw [if_pos hshort]
  · intro h10 h8 hrd
    simp only [decodeResourceRecord, hname]
    rw [if_neg h10]
    obtain ⟨v0, hv0⟩ := decodeUint16_isSome data (offset + consumed) (by omega)
    obtain ⟨v2, hv2⟩ := decodeUint16_isSome data (offset + consumed + 2) (by omega)
    obtain ⟨v4, hv4⟩ := decodeUint32_isSome data (offset + consumed + 4) (by omega)
    simp only [hv0, hv2, hv4, h8]
    rw [if_pos hrd]
  · intro hE
    simp only [decodeResourceRecords, hE]

/-- Claim C3 witness: a one-byte buffer (name only) hits the too-short
error, which also aborts a one-record sequence; an 11-byte buffer declaring
a 5-byte payload with 0 bytes left hits the RDATA-length error. -/
theorem C3_record_framing_checks_witness :
    decodeResourceRecord [0] 0 = .err "invalid DNS resource record" ∧
    decodeResourceRecords [0] 0 1 = .err "invalid DNS resource record" ∧
    decodeResourceRecord [0, 0, 1, 0, 1, 0, 0, 0, 0, 0, 5] 0 =
      .err "invalid DNS resource record RDATA length" := by
  have t1 := C3_record_framing_checks [0] 0 1 0 0 "." "invalid DNS resource record" (by decide)
  have h1 := t1.1 (by decide)
  have t2 := C3_record_framing_checks [0, 0, 1, 0, 1, 0, 0, 0, 0, 0, 5] 0 1 5 0 "." "" (by decide)
  exact ⟨h1, t1.2.2 h1, t2.2.1 (by decide) (by decide) (by decide)⟩

/-- Claim C9: a successful record decode returns a record whose declared
payload-length field equals the length of its raw payload slice, and a next
offset equal to the input offset plus the bytes consumed by the name plus 10
plus that payload length. -/
theorem C9_rdlength_and_next_offset (data : List Byte) (offset : Nat)
    (rr : ResourceRecord) (next : Nat)
    (h : decodeResourceRecord data offset = .ok (rr, next)) :
    rr.RData.Raw.length = rr.RDLength ∧
    ∃ consumed, decodeDomainName data offset = .ok (rr.Name, consumed) ∧
      next = offset + consumed + 10 + rr.RDLength := by
  obtain ⟨consumed, hname, h10, h8, hrd, hraw, hnext⟩ :=
    decodeResourceRecord_ok_inv data offset rr next h
  refine ⟨?_, consumed, hname, hnext⟩
  rw [hraw, List.length_take, List.length_drop]
  omega

/-- Claim C9 witness: a concrete IPv4 address record. -/
theorem C9_rdlength_and_next_offset_witness :
    decodeResourceRecord [0, 0, 1, 0, 1, 0, 0, 0, 0, 0, 4, 93, 184, 216, 34] 0 =
      .ok ({ Name := ".", RType := 1, RClass := 1, TTL := 0, RDLength := 4,
             RData := { Raw := [93, 184, 216, 34], Decoded := "93.184.216.34" } }, 15) ∧
    ({ Name := ".", RType := 1, RClass := 1, TTL := 0, RDLength := 4,
       RData := { Raw := [93, 184, 216, 34], Decoded := "93.184.216.34" } }
        : ResourceRecord).RData.Raw.length =
      ({ Name := ".", RType := 1, RClass := 1, TTL := 0, RDLength := 4,
         RData := { Raw := [93, 184, 216, 34], Decoded := "93.184.216.34" } }
          : ResourceRecord).RDLength :=
  ⟨by decide,
   (C9_rdlength_and_next_offset [0, 0, 1, 0, 1, 0, 0, 0, 0, 0, 4, 93, 184, 216, 34] 0
     { Name := ".", RType := 1, RClass := 1, TTL := 0, RDLength := 4,
       RData := { Raw := [93, 184, 216, 34], Decoded := "93.184.216.34" } } 15 (by decide)).1⟩

/-- Claim C2: the raw payload of a successfully decoded record is exactly
the payload slice of the input buffer, and re-encoding emits precisely those
raw bytes as the payload — the decoded textual form is never written, so
changing it does not change the encoding. -/
theorem C2_encode_emits_original_raw_payload (data : List Byte) (offset : Nat)
    (rr : ResourceRecord) (next : Nat)
    (h : decodeResourceRecord data offset = .ok (rr, next)) :
    rr.RData.Raw = (data.drop (next - rr.RDLength)).take rr.RDLength ∧
    encodeResourceRecord rr =
      (encodeDomainName rr.Name ++ encodeUint16 rr.RType ++ encodeUint16 rr.RClass ++
       encodeUint32 rr.TTL ++ encodeUint16 rr.RDLength) ++ rr.RData.Raw ∧
    (∀ s, encodeResourceRecord
        { rr with RData := { Raw := rr.RData.Raw, Decoded := s } } =
      encodeResourceRecord rr) := by
  obtain ⟨consumed, hname, h10, h8, hrd, hraw, hnext⟩ :=
    decodeResourceRecord_ok_inv data offset rr next h
  refine ⟨?_, by simp [encodeResourceRecord, List.append_assoc], fun s => rfl⟩
  rw [hnext, Nat.add_sub_cancel]
  exact hraw

/-- Claim C2 witness: a concrete TXT record; its raw payload is the input
slice and the encoding ends in exactly those bytes. -/
theorem C2_encode_emits_original_raw_payload_witness :
    decodeResourceRecord [0, 0, 16, 0, 1, 0, 0, 0, 0, 0, 2, 104, 105] 0 =
      .ok ({ Name := ".", RType := 16, RClass := 1, TTL := 0, RDLength := 2,
             RData := { Raw := [104, 105], Decoded := "hi" } }, 13) ∧
    ({ Name := ".", RType := 16, RClass := 1, TTL := 0, RDLength := 2,
       RData := { Raw := [104, 105], Decoded := "hi" } } : ResourceRecord).RData.Raw =
      (List.take 2 (List.drop (13 - 2) [0, 0, 16, 0, 1, 0, 0, 0, 0, 0, 2, 104, 105])
        : List Byte) :=
  ⟨by decide,
   (C2_encode_emits_original_raw_payload [0, 0, 16, 0, 1, 0, 0, 0, 0, 0, 2, 104, 105] 0
     { Name := ".", RType := 16, RClass := 1, TTL := 0, RDLength := 2,
       RData := { Raw := [104, 105], Decoded := "hi" } } 13 (by decide)).1⟩

/-- Claim C5: when the framing of a name-alias (CNAME) record is well formed
but the embedded domain name of its payload fails to decode, the failure is
recovered locally: the record decode still succeeds, the decoded form is the
empty string, the raw payload bytes are retained, and the returned record
and next offset let the enclosing message decode continue. -/
theorem C5_interpreter_failure_recovered (data : List Byte)
    (offset consumed rclass ttl rdlength : Nat) (name e : String)
    (hname : decodeDomainName data offset = .ok (name, consumed))
    (h10 : ¬ data.length < offset + consumed + 10)
    (htype : decodeUint16 data (offset + consumed) = some CNAME)
    (hclass : decodeUint16 data (offset + consumed + 2) = some rclass)
    (httl : decodeUint32 data (offset + consumed + 4) = some ttl)
    (hlen : decodeUint16 data (offset + consumed + 8) = some rdlength)
    (hrd : ¬ data.length < offset + consumed + 10 + rdlength)
    (hfail : decodeDomainName data (offset + consumed + 10) = .err e) :
    decodeResourceRecord data offset =
      .ok ({ Name := name, RType := CNAME, RClass := rclass, TTL := ttl, RDLength := rdlength,
             RData := { Raw := (data.drop (offset + consumed + 10)).take rdlength,
                        Decoded := "" } },
           offset + consumed + 10 + rdlength) := by
  simp only [decodeResourceRecord, hname]
  rw [if_neg h10]
  simp only [htype, hclass, httl, hlen]
  rw [if_neg hrd]
  simp only [decodeRData]
  rw [if_neg (by decide), if_pos (by decide)]
  simp only [decodeCNAME, hfail, Option.map_some']

/-- Claim C5 witness: a CNAME record whose one-byte payload `[100]` is an
invalid label length, so the embedded name decode fails; the record still
decodes with empty decoded form and the raw byte retained. -/
theorem C5_interpreter_failure_recovered_witness :
    decodeDomainName [0, 0, 5, 0, 1, 0, 0, 0, 0, 0, 1, 100] 11 = .err "invalid label length" ∧
    decodeResourceRecord [0, 0, 5, 0, 1, 0, 0, 0, 0, 0, 1, 100] 0 =
      .ok ({ Name := ".", RType := CNAME, RClass := 1, TTL := 0, RDLength := 1,
             RData := { Raw := [100], Decoded := "" } }, 12) :=
  ⟨by decide,
   C5_interpreter_failure_recovered [0, 0, 5, 0, 1, 0, 0, 0, 0, 0, 1, 100] 0 1 1 0 1 "."
     "invalid label length" (by decide) (by decide) (by decide) (by decide) (by decide)
     (by decide) (by decide) (by decide)⟩

/-- Claim C10, counterexample: `c10ext` appends two trailing bytes after the
last record of `c10base`; both messages decode successfully, but the
trailing bytes are read by the CNAME payload interpreter and change the
decoded textual form of the answer record from `""` to `"a."` — the
trailing bytes are not ignored and do affect the decoded message. -/
theorem C10_trailing_bytes_counterexample :
    decodedForms (DecodeDNSMessage c10base) = some [""] ∧
    decodedForms (DecodeDNSMessage c10ext) = some ["a."] ∧
    DecodeDNSMessage c10ext ≠ DecodeDNSMessage c10base := by
  decide

/-- Claim C10, amended: whenever the header and all header-declared sections
decode successfully, the message decoder succeeds and returns exactly the
message assembled from those sections, even when the final offset is
strictly below the buffer length (trailing bytes remain and cause no
error); the trailing bytes are however visible to the RDATA interpreters
through the full buffer, so they are not ignored by the section decodes
themselves. -/
theorem C10_trailing_bytes_no_error (data : List Byte) (hdr : Header)
    (qs : List Question) (ans nss ads : List ResourceRecord) (o1 o2 o3 o4 : Nat)
    (h12 : ¬ data.length < 12)
    (hh : DecodeDNSHeader data = .ok hdr)
    (hq : decodeQuestions data 12 hdr.QuestionCount = .ok (qs, o1))
    (ha : decodeResourceRecords data o1 hdr.AnswerRRCount = .ok (ans, o2))
    (hn : decodeResourceRecords data o2 hdr.NameserverRRCount = .ok (nss, o3))
    (hd : decodeResourceRecords data o3 hdr.AdditionalRRCount = .ok (ads, o4))
    (htrail : o4 < data.length) :
    DecodeDNSMessage data =
      .ok { Header := hdr, Questions := qs, Answers := ans,
            NameServers := nss, Additionals := ads } := by
  simp only [DecodeDNSMessage, hh, hq, ha, hn, hd]
  rw [if_neg h12]

/-- Claim C10 witness: `c10ext` decodes with 24 of its 26 bytes consumed by
the sections; the two trailing bytes cause no error. -/
theorem C10_trailing_bytes_no_error_witness :
    (¬ c10ext.length < 12) ∧
    DecodeDNSHeader c10ext = .ok c10hdr ∧
    decodeResourceRecords c10ext 12 c10hdr.AnswerRRCount = .ok ([c10rec], 24) ∧
    24 < c10ext.length ∧
    DecodeDNSMessage c10ext =
      .ok { Header := c10hdr, Questions := [], Answers := [c10rec],
            NameServers := [], Additionals := [] } :=
  ⟨by decide, by decide, by decide, by decide,
   C10_trailing_bytes_no_error c10ext c10hdr [] [c10rec] [] [] 12 24 24 24
     (by decide) (by decide) (by decide) (by decide) (by decide) (by decide) (by decide)⟩

end DnsCodec
